import Mathlib

/-!
Shallow embedding of the net-worth tracker's growth analytics and accounts
composable, together with the dashboard chart data transformation.

Source files embedded:
* `app/composables/useGrowth.ts` — `calculateGrowth`
* the accounts composable (`useAccounts`) — `getBalanceHistory`, `addAccount`,
  `updateBalance`, `updateAccount`, `deleteAccount`, modelled with an explicit
  effect trace for the awaited database writes and snapshot reloads
* `app/components/dashboard/NetWorthCard.vue` — `chartData`

JavaScript numbers are modelled as rationals (`ℚ`); month keys are the
`YYYY-MM` strings the code compares lexicographically; fallible parsing
(`parseInt` returning `NaN`) is modelled with `Option`.
-/

namespace NetWorth

/-- A monthly aggregate snapshot, as consumed by `calculateGrowth`
(`MonthlySnapshotData` in `useSnapshots`). -/
structure MonthlySnapshotData where
  month : String
  netWorth : ℚ
  assetsTotal : ℚ
  liabilitiesTotal : ℚ
deriving DecidableEq, Repr

/-- The `ValueKey` union type of `useGrowth.ts`. -/
inductive ValueKey where
  | netWorth
  | assetsTotal
  | liabilitiesTotal
deriving DecidableEq, Repr

/-- Field projection `snapshot[valueKey]`. -/
def MonthlySnapshotData.get (s : MonthlySnapshotData) : ValueKey → ℚ
  | .netWorth => s.netWorth
  | .assetsTotal => s.assetsTotal
  | .liabilitiesTotal => s.liabilitiesTotal

/-- The `GrowthResult` interface of `useGrowth.ts`. -/
structure GrowthResult where
  growth : ℚ
  percentage : ℚ
deriving DecidableEq, Repr

/-- A JavaScript `Date` restricted to what `calculateGrowth` reads from it:
`getFullYear()` and `getMonth()` (0-based month index). -/
structure JsDate where
  fullYear : Nat
  monthIndex : Nat
deriving DecidableEq, Repr

/-- Lexicographic strict comparison of character lists, by code point.  For the
ASCII `YYYY-MM` month keys the code compares, this coincides with JavaScript's
UTF-16 code-unit string comparison. -/
def charListLtb : List Char → List Char → Bool
  | [], [] => false
  | [], _ :: _ => true
  | _ :: _, [] => false
  | a :: as, b :: bs => if a < b then true else if b < a then false else charListLtb as bs

/-- JavaScript `s < t` on strings. -/
def jsStringLt (s t : String) : Bool := charListLtb s.data t.data

/-- JavaScript `s <= t` on strings (equivalently `t >= s`). -/
def jsStringLe (s t : String) : Bool := !jsStringLt t s

/-- `String(n).padStart(2, '0')` for a natural number `n`. -/
def pad2 (n : Nat) : String :=
  if (toString n).length < 2 then "0" ++ toString n else toString n

/-- Line 51 of `useGrowth.ts`: the month key derived from the start date,
`` `${startDate.getFullYear()}-${String(startDate.getMonth() + 1).padStart(2, '0')}` ``. -/
def monthKeyOf (d : JsDate) : String :=
  toString d.fullYear ++ "-" ++ pad2 (d.monthIndex + 1)

/-- The growth/percentage arithmetic shared by lines 42–47 and 63–67 of
`useGrowth.ts`: `growth = current - startValue`,
`percentage = startValue !== 0 ? (growth / Math.abs(startValue)) * 100 : 0`. -/
def growthPair (startValue current : ℚ) : GrowthResult :=
  { growth := current - startValue
    percentage := if startValue ≠ 0 then (current - startValue) / |startValue| * 100 else 0 }

/-- `calculateGrowth` from `useGrowth.ts`, lines 25–70.  The reactive read
`monthlySnapshots.value` is passed explicitly as the `snapshots` argument;
`startDate : Date | null` becomes `Option JsDate`. -/
def calculateGrowth (snapshots : List MonthlySnapshotData)
    (startDate : Option JsDate) (valueKey : ValueKey) (currentValue : ℚ) : GrowthResult :=
  if snapshots.length = 0 then { growth := 0, percentage := 0 }
  else
    -- `const latestSnapshot = snapshots[snapshots.length - 1]`
    -- `const current = latestSnapshot?.[valueKey] ?? currentValue`
    let current : ℚ :=
      match snapshots.getLast? with
      | some latestSnapshot => latestSnapshot.get valueKey
      | none => currentValue
    match startDate with
    | none =>
      -- `if (!firstSnapshot || snapshots.length < 2) return { growth: 0, percentage: 0 }`
      match snapshots.head? with
      | none => { growth := 0, percentage := 0 }
      | some firstSnapshot =>
        if snapshots.length < 2 then { growth := 0, percentage := 0 }
        else growthPair (firstSnapshot.get valueKey) current
    | some startDate =>
      let startMonth := monthKeyOf startDate
      -- `snapshots.find(s => s.month >= startMonth)`
      let found := snapshots.find? fun s => jsStringLe startMonth s.month
      -- `if (!startSnapshot) { startSnapshot = snapshots[0] }`
      let startSnapshot? := match found with
        | some s => some s
        | none => snapshots.head?
      match startSnapshot? with
      | none => { growth := 0, percentage := 0 }
      | some startSnapshot => growthPair (startSnapshot.get valueKey) current

/-! ## Accounts composable (`useAccounts`)

The composable's operations are `async` functions that `await` database writes
and then `await loadSnapshots()` before resolving.  The code is
single-threaded with cooperative suspension, so each operation is embedded as a
function returning its result together with the ordered trace of awaited
effects, in the order they complete before the operation's promise resolves. -/

/-- The three-tier `OwnerType` (`me`, `spouse`, `joint`). -/
inductive OwnerType where
  | me
  | spouse
  | joint
deriving DecidableEq, Repr

/-- The `AccountInput` interface of the accounts composable. -/
structure AccountInput where
  name : String
  bank : String
  category : String
  owner : OwnerType
  initialBalance : ℚ
  notes : Option String := none
deriving DecidableEq, Repr

/-- The `AccountUpdate` interface of the accounts composable. -/
structure AccountUpdate where
  name : String
  bank : String
  category : String
  owner : OwnerType
  notes : Option String := none
deriving DecidableEq, Repr

/-- A balance row as returned by the database's `getAccountBalances`. -/
structure DbBalance where
  date : String
  value : ℚ
deriving DecidableEq, Repr

/-- The `BalanceEntry` interface of the accounts composable. -/
structure BalanceEntry where
  date : String
  value : ℚ
deriving DecidableEq, Repr

/-- One awaited effect of an accounts-composable operation: a low-level
database call, the snapshot reload, or a `console.error` log. -/
inductive Effect where
  | dbAddAccount : AccountInput → Effect
  | dbUpdateBalance : Int → ℚ → String → Effect
  | dbUpdateAccount : Int → AccountUpdate → Effect
  | dbDeleteAccount : Int → Effect
  | dbGetAccountBalances : Int → Effect
  | loadSnapshots : Effect
  | consoleError : String → Effect
deriving DecidableEq, Repr

/-- Is this effect a database mutation or read? -/
def Effect.isDbOp : Effect → Bool
  | .dbAddAccount _ => true
  | .dbUpdateBalance _ _ _ => true
  | .dbUpdateAccount _ _ => true
  | .dbDeleteAccount _ => true
  | .dbGetAccountBalances _ => true
  | .loadSnapshots => false
  | .consoleError _ => false

/-- The numeric value of a decimal digit run, most significant first. -/
def digitsToNat (ds : List Char) : Nat :=
  ds.foldl (fun acc c => acc * 10 + (c.toNat - 48)) 0

/-- JavaScript `parseInt(s, 10)`: skip leading whitespace, read an optional
sign, then the longest prefix of decimal digits; `none` models `NaN` (no
digits found). -/
def jsParseInt10 (s : String) : Option Int :=
  let cs := s.data.dropWhile fun c =>
    c = ' ' ∨ c = '\t' ∨ c = '\n' ∨ c = '\r' ∨ c = '\x0b' ∨ c = '\x0c'
  let core : List Char → Option Nat := fun l =>
    let ds := l.takeWhile Char.isDigit
    if ds.isEmpty then none else some (digitsToNat ds)
  match cs with
  | '-' :: rest => (core rest).map fun n => -(n : Int)
  | '+' :: rest => (core rest).map fun n => (n : Int)
  | _ => (core cs).map fun n => (n : Int)

/-- The `accountId: string | number` union accepted by `getBalanceHistory`. -/
def AccountId := Int ⊕ String

/-- The ambient clock `new Date()` reads from, reduced to what the composable
uses: the full ISO-8601 UTC timestamp (`toISOString()`), plus the local
calendar day, which the code does NOT use but which the claims compare
against. -/
structure Clock where
  isoUtc : String
  localDay : String
deriving DecidableEq, Repr

/-- `getBalanceHistory` from the accounts composable: resolve the id
(numbers pass through, strings go through `parseInt`), return `[]` on `NaN`,
otherwise read the balances and project `{date, value}`. -/
def getBalanceHistory (db : Int → List DbBalance) (accountId : AccountId) :
    List BalanceEntry × List Effect :=
  let numericId : Option Int :=
    match accountId with
    | .inl n => some n
    | .inr s => jsParseInt10 s
  match numericId with
  | none => ([], [])
  | some id =>
    ((db id).map fun b => { date := b.date, value := b.value },
     [Effect.dbGetAccountBalances id])

/-- `addAccount`: awaits the database insert, then awaits `loadSnapshots()`. -/
def addAccount (account : AccountInput) : List Effect :=
  [Effect.dbAddAccount account, Effect.loadSnapshots]

/-- `updateBalance`: parse the id (log and return on `NaN`), default the date
to `new Date().toISOString().slice(0, 10)` when the argument is omitted or
falsy (the empty string), write, then reload snapshots. -/
def updateBalance (clock : Clock) (accountId : String) (amount : ℚ)
    (date : Option String) : List Effect :=
  match jsParseInt10 accountId with
  | none => [Effect.consoleError accountId]
  | some numericId =>
    -- `const dateStr = date || new Date().toISOString().slice(0, 10)`
    let dateStr :=
      match date with
      | some d => if d = "" then clock.isoUtc.take 10 else d
      | none => clock.isoUtc.take 10
    [Effect.dbUpdateBalance numericId amount dateStr, Effect.loadSnapshots]

/-- `updateAccount`: parse the id (log and return on `NaN`), write the account
details, then reload snapshots. -/
def updateAccount (accountId : String) (data : AccountUpdate) : List Effect :=
  match jsParseInt10 accountId with
  | none => [Effect.consoleError accountId]
  | some numericId => [Effect.dbUpdateAccount numericId data, Effect.loadSnapshots]

/-- `deleteAccount`: parse the id (log and return on `NaN`), delete, then
reload snapshots. -/
def deleteAccount (accountId : String) : List Effect :=
  match jsParseInt10 accountId with
  | none => [Effect.consoleError accountId]
  | some numericId => [Effect.dbDeleteAccount numericId, Effect.loadSnapshots]

/-! ## Dashboard net-worth chart (`NetWorthCard.vue`) -/

/-- One point of the dashboard chart series (the `formattedDate` label, a pure
locale rendering of `month`, is omitted). -/
structure ChartPoint where
  x : Nat
  assets : ℚ
  liabilities : ℚ
  netWorth : ℚ
  month : String
deriving DecidableEq, Repr

/-- `chartData` from `NetWorthCard.vue`: filter to months with
`assetsTotal > 0 || liabilitiesTotal > 0`, then map with the post-filter
index as `x`. -/
def chartData (monthlySnapshots : List MonthlySnapshotData) : List ChartPoint :=
  let snapshots := monthlySnapshots.filter fun s =>
    decide (0 < s.assetsTotal) || decide (0 < s.liabilitiesTotal)
  snapshots.mapIdx fun index s =>
    { x := index
      assets := s.assetsTotal
      liabilities := s.liabilitiesTotal
      netWorth := s.netWorth
      month := s.month }

/-! ## Demonstration data used by the claims' concrete examples -/

/-- Snapshots for months 2024-01..2024-03 with net worth 1000, 1100, 1300. -/
def demoGrowthSnapshots : List MonthlySnapshotData :=
  [⟨"2024-01", 1000, 0, 0⟩, ⟨"2024-02", 1100, 0, 0⟩, ⟨"2024-03", 1300, 0, 0⟩]

/-- A liability total moving from −50 (credit) to 100 (debt). -/
def demoCrossingSnapshots : List MonthlySnapshotData :=
  [⟨"2024-01", 0, 0, -50⟩, ⟨"2024-02", 0, 0, 100⟩]

/-- Three consecutive months where only the middle month has both totals at
zero. -/
def demoChartSnapshots : List MonthlySnapshotData :=
  [⟨"2024-01", 5, 5, 0⟩, ⟨"2024-02", 0, 0, 0⟩, ⟨"2024-03", 7, 7, 0⟩]

/-! ## Shared helper lemmas -/

/-- `List.find?` either fails and nothing satisfies the predicate, or returns
the element at the first satisfying index. -/
theorem find?_first_index {α : Type} (p : α → Bool) (l : List α) :
    (l.find? p = none ∧ ∀ x ∈ l, p x = false) ∨
    ∃ i : Fin l.length, p (l.get i) = true ∧
      (∀ j : Fin l.length, (j : ℕ) < (i : ℕ) → p (l.get j) = false) ∧
      l.find? p = some (l.get i) := by
  induction l with
  | nil => exact Or.inl ⟨rfl, by simp⟩
  | cons a t ih =>
    by_cases hpa : p a = true
    · refine Or.inr ⟨⟨0, Nat.succ_pos _⟩, hpa, ?_, List.find?_cons_of_pos _ hpa⟩
      intro j hj
      simp at hj
    · have hpa' : p a = false := by simpa using hpa
      rcases ih with ⟨hnone, hall⟩ | ⟨i, hpi, hfirst, hfind⟩
      · refine Or.inl ⟨?_, ?_⟩
        · rw [List.find?_cons_of_neg _ hpa, hnone]
        · intro x hx
          rcases List.mem_cons.mp hx with rfl | hx
          · exact hpa'
          · exact hall x hx
      · refine Or.inr ⟨⟨i + 1, Nat.succ_lt_succ i.isLt⟩, by simpa using hpi, ?_, ?_⟩
        · intro j hj
          match j with
          | ⟨0, _⟩ => exact hpa'
          | ⟨jj + 1, hlt⟩ =>
            have := hfirst ⟨jj, Nat.lt_of_succ_lt_succ hlt⟩ (by simpa using hj)
            simpa using this
        · rw [List.find?_cons_of_neg _ hpa]
          simpa using hfind

/-- The arithmetic of `growthPair`, stated the way the specification words it:
the growth is current minus start, and the percentage is `0` for a zero start
value and otherwise growth over the absolute start value, times 100. -/
theorem growthPair_spec (sv cur : ℚ) :
    (growthPair sv cur).growth = cur - sv ∧
    (growthPair sv cur).percentage =
      (if sv = 0 then 0 else (growthPair sv cur).growth / |sv| * 100) := by
  refine ⟨rfl, ?_⟩
  by_cases hsv : sv = 0 <;> simp [growthPair, hsv]

/-! ## Claim theorems -/

/-- C1: with a non-empty sequence and a non-null start date, the start value
comes from the first snapshot (ascending) whose month key is ≥ the `YYYY-MM`
key derived from the start date, and when no snapshot has such a month the
first snapshot of the sequence is used instead; in particular the demo
sequence 2024-01..2024-03 with net worth 1000, 1100, 1300 and start date
2023-01-01 yields `{growth: 300, percentage: 30}`. -/
theorem calculateGrowth_start_selection (snapshots : List MonthlySnapshotData)
    (d : JsDate) (valueKey : ValueKey) (currentValue : ℚ) (h : snapshots ≠ []) :
    ((∃ i : Fin snapshots.length,
        jsStringLe (monthKeyOf d) (snapshots.get i).month = true ∧
        (∀ j : Fin snapshots.length, (j : ℕ) < (i : ℕ) →
          jsStringLe (monthKeyOf d) (snapshots.get j).month = false) ∧
        calculateGrowth snapshots (some d) valueKey currentValue =
          growthPair ((snapshots.get i).get valueKey) ((snapshots.getLast h).get valueKey)) ∨
      ((∀ s ∈ snapshots, jsStringLe (monthKeyOf d) s.month = false) ∧
        calculateGrowth snapshots (some d) valueKey currentValue =
          growthPair ((snapshots.head h).get valueKey) ((snapshots.getLast h).get valueKey))) ∧
    calculateGrowth demoGrowthSnapshots (some ⟨2023, 0⟩) .netWorth 0 =
      { growth := 300, percentage := 30 } := by
  have hlen : ¬snapshots.length = 0 := by simpa [List.length_eq_zero] using h
  constructor
  · rcases find?_first_index (fun s => jsStringLe (monthKeyOf d) s.month) snapshots with
      ⟨hnone, hall⟩ | ⟨i, hpi, hfirst, hfind⟩
    · refine Or.inr ⟨hall, ?_⟩
      simp only [calculateGrowth, if_neg hlen, List.getLast?_eq_getLast _ h, hnone,
        List.head?_eq_head h]
    · refine Or.inl ⟨i, hpi, hfirst, ?_⟩
      simp only [calculateGrowth, if_neg hlen, List.getLast?_eq_getLast _ h, hfind]
  · have hfind : List.find? (fun s => jsStringLe (monthKeyOf ⟨2023, 0⟩) s.month)
        demoGrowthSnapshots = some ⟨"2024-01", 1000, 0, 0⟩ := by decide
    simp only [calculateGrowth, demoGrowthSnapshots] at hfind ⊢
    rw [hfind]
    simp [MonthlySnapshotData.get, growthPair]
    norm_num

/-- Witness for C1: its hypothesis holds at the demo sequence, and the claim's
concrete example follows by applying the theorem there. -/
theorem calculateGrowth_start_selection_witness :
    demoGrowthSnapshots ≠ [] ∧
    calculateGrowth demoGrowthSnapshots (some ⟨2023, 0⟩) .netWorth 0 =
      { growth := 300, percentage := 30 } :=
  ⟨by decide,
   (calculateGrowth_start_selection demoGrowthSnapshots ⟨2023, 0⟩ .netWorth 0 (by decide)).2⟩

/-- C2: whenever the result is non-trivial (non-empty sequence, and at least
2 snapshots when the start date is null), the growth is the last snapshot's
field value minus some start value, and the percentage is `0` for a zero
start value and otherwise growth over the absolute start value, times 100;
in particular a liability total moving from −50 to 100 yields
`{growth: 150, percentage: 300}`. -/
theorem calculateGrowth_delta_and_percentage (snapshots : List MonthlySnapshotData)
    (startDate : Option JsDate) (valueKey : ValueKey) (currentValue : ℚ)
    (h : snapshots ≠ []) (h2 : startDate = none → 2 ≤ snapshots.length) :
    (∃ startValue : ℚ,
      (calculateGrowth snapshots startDate valueKey currentValue).growth =
        (snapshots.getLast h).get valueKey - startValue ∧
      (calculateGrowth snapshots startDate valueKey currentValue).percentage =
        (if startValue = 0 then 0
         else (calculateGrowth snapshots startDate valueKey currentValue).growth /
           |startValue| * 100)) ∧
    calculateGrowth demoCrossingSnapshots none .liabilitiesTotal 0 =
      { growth := 150, percentage := 300 } := by
  have hlen : ¬snapshots.length = 0 := by simpa [List.length_eq_zero] using h
  constructor
  · cases startDate with
    | none =>
      have hlen2 : 2 ≤ snapshots.length := h2 rfl
      have hlt : ¬snapshots.length < 2 := by omega
      refine ⟨(snapshots.head h).get valueKey, ?_⟩
      simp only [calculateGrowth, if_neg hlen, List.getLast?_eq_getLast _ h,
        List.head?_eq_head h, if_neg hlt]
      exact growthPair_spec _ _
    | some d =>
      rcases find?_first_index (fun s => jsStringLe (monthKeyOf d) s.month) snapshots with
        ⟨hnone, -⟩ | ⟨i, -, -, hfind⟩
      · refine ⟨(snapshots.head h).get valueKey, ?_⟩
        simp only [calculateGrowth, if_neg hlen, List.getLast?_eq_getLast _ h, hnone,
          List.head?_eq_head h]
        exact growthPair_spec _ _
      · refine ⟨(snapshots.get i).get valueKey, ?_⟩
        simp only [calculateGrowth, if_neg hlen, List.getLast?_eq_getLast _ h, hfind]
        exact growthPair_spec _ _
  · simp only [calculateGrowth, demoCrossingSnapshots]
    simp [MonthlySnapshotData.get, growthPair]
    norm_num

/-- Witness for C2: its hypotheses hold at the crossing-liability demo, and
the claim's concrete example follows by applying the theorem there. -/
theorem calculateGrowth_delta_and_percentage_witness :
    demoCrossingSnapshots ≠ [] ∧ 2 ≤ demoCrossingSnapshots.length ∧
    calculateGrowth demoCrossingSnapshots none .liabilitiesTotal 0 =
      { growth := 150, percentage := 300 } :=
  ⟨by decide, by decide,
   (calculateGrowth_delta_and_percentage demoCrossingSnapshots none .liabilitiesTotal 0
     (by decide) (fun _ => by decide)).2⟩

/-- C4: for the empty snapshot sequence, `calculateGrowth` returns
`{growth: 0, percentage: 0}` for every field choice, every start date (null
or not) and every `currentValue` argument.  (The embedding is a total
function, so no error can be raised.) -/
theorem calculateGrowth_empty (startDate : Option JsDate) (valueKey : ValueKey)
    (currentValue : ℚ) :
    calculateGrowth [] startDate valueKey currentValue = { growth := 0, percentage := 0 } := rfl

/-- C3: with fewer than 2 snapshots and `startDate = null`, `calculateGrowth`
returns `{growth: 0, percentage: 0}` for every field choice and every
`currentValue` argument. -/
theorem calculateGrowth_short_history (snapshots : List MonthlySnapshotData)
    (valueKey : ValueKey) (currentValue : ℚ) (h : snapshots.length < 2) :
    calculateGrowth snapshots none valueKey currentValue = { growth := 0, percentage := 0 } := by
  rcases snapshots with _ | ⟨a, _ | ⟨b, t⟩⟩
  · rfl
  · rfl
  · exfalso
    simp at h
    omega

/-- Witness for C3 at a concrete single-snapshot sequence. -/
theorem calculateGrowth_short_history_witness :
    calculateGrowth [⟨"2024-01", 7, 9, 2⟩] none .netWorth 5 = { growth := 0, percentage := 0 } :=
  calculateGrowth_short_history [⟨"2024-01", 7, 9, 2⟩] .netWorth 5 (by simp)

/-- C7: for a non-empty sequence the fallback to the `currentValue` argument
is never taken — two calls that differ only in `currentValue` agree, and the
result is the one computed from the last snapshot's field value. -/
theorem calculateGrowth_ignores_currentValue (snapshots : List MonthlySnapshotData)
    (startDate : Option JsDate) (valueKey : ValueKey) (c₁ c₂ : ℚ)
    (h : snapshots ≠ []) :
    calculateGrowth snapshots startDate valueKey c₁ =
      calculateGrowth snapshots startDate valueKey c₂ := by
  simp only [calculateGrowth, List.getLast?_eq_getLast _ h]

/-- Witness for C7 at a concrete sequence and two different fallbacks. -/
theorem calculateGrowth_ignores_currentValue_witness :
    calculateGrowth [⟨"2024-01", 7, 9, 2⟩] (some ⟨2024, 0⟩) .assetsTotal 1 =
      calculateGrowth [⟨"2024-01", 7, 9, 2⟩] (some ⟨2024, 0⟩) .assetsTotal 2 :=
  calculateGrowth_ignores_currentValue [⟨"2024-01", 7, 9, 2⟩] (some ⟨2024, 0⟩)
    .assetsTotal 1 2 (by simp)

/-- C8: `calculateGrowth` is deterministic — equal snapshot sequences and
equal arguments give identical results.  (Purity is structural: the
embedding's type returns only the `GrowthResult`, mirroring that the source
reads the reactive sequence and performs arithmetic with no writes.) -/
theorem calculateGrowth_deterministic (s₁ s₂ : List MonthlySnapshotData)
    (d₁ d₂ : Option JsDate) (k₁ k₂ : ValueKey) (c₁ c₂ : ℚ)
    (hs : s₁ = s₂) (hd : d₁ = d₂) (hk : k₁ = k₂) (hc : c₁ = c₂) :
    calculateGrowth s₁ d₁ k₁ c₁ = calculateGrowth s₂ d₂ k₂ c₂ := by
  rw [hs, hd, hk, hc]

/-- Witness for C8 at concrete equal inputs. -/
theorem calculateGrowth_deterministic_witness :
    calculateGrowth demoGrowthSnapshots none .netWorth 0 =
      calculateGrowth demoGrowthSnapshots none .netWorth 0 :=
  calculateGrowth_deterministic demoGrowthSnapshots demoGrowthSnapshots none none
    .netWorth .netWorth 0 0 rfl rfl rfl rfl

/-- C5: on an account id string that does not parse as a number,
`getBalanceHistory` returns the empty list, and `updateBalance`,
`updateAccount` and `deleteAccount` return having performed no database
operation and no snapshot refresh (their only effect is the error log); the
embedding is total, so none of them throws. -/
theorem invalid_account_id_noops (s : String) (hs : jsParseInt10 s = none) :
    (∀ db : Int → List DbBalance, getBalanceHistory db (Sum.inr s) = ([], [])) ∧
    (∀ clock amount date, updateBalance clock s amount date = [Effect.consoleError s]) ∧
    (∀ data, updateAccount s data = [Effect.consoleError s]) ∧
    deleteAccount s = [Effect.consoleError s] ∧
    (∀ clock amount date e, e ∈ updateBalance clock s amount date →
      e.isDbOp = false ∧ e ≠ Effect.loadSnapshots) ∧
    (∀ data e, e ∈ updateAccount s data → e.isDbOp = false ∧ e ≠ Effect.loadSnapshots) ∧
    (∀ e, e ∈ deleteAccount s → e.isDbOp = false ∧ e ≠ Effect.loadSnapshots) := by
  refine ⟨fun db => by simp [getBalanceHistory, hs],
    fun clock amount date => by simp [updateBalance, hs],
    fun data => by simp [updateAccount, hs],
    by simp [deleteAccount, hs], ?_, ?_, ?_⟩
  · intro clock amount date e he
    simp only [updateBalance, hs] at he
    rcases List.mem_singleton.mp he with rfl
    exact ⟨rfl, fun hcontra => Effect.noConfusion hcontra⟩
  · intro data e he
    simp only [updateAccount, hs] at he
    rcases List.mem_singleton.mp he with rfl
    exact ⟨rfl, fun hcontra => Effect.noConfusion hcontra⟩
  · intro e he
    simp only [deleteAccount, hs] at he
    rcases List.mem_singleton.mp he with rfl
    exact ⟨rfl, fun hcontra => Effect.noConfusion hcontra⟩

/-- Witness for C5 at the concrete non-numeric id `"abc"`. -/
theorem invalid_account_id_noops_witness :
    jsParseInt10 "abc" = none ∧
    updateBalance ⟨"2024-01-02T01:00:00.000Z", "2024-01-01"⟩ "abc" 3 none =
      [Effect.consoleError "abc"] :=
  ⟨by decide,
   (invalid_account_id_noops "abc" (by decide)).2.1 ⟨"2024-01-02T01:00:00.000Z", "2024-01-01"⟩
     3 none⟩

/-- C6: each mutation of the accounts composable (always for `addAccount`,
and on a valid numeric id for the other three) performs its database write
and then the snapshot reload, in that order, as the complete trace of
awaited effects before its promise resolves. -/
theorem mutations_await_snapshot_reload (s : String) (n : Int)
    (hs : jsParseInt10 s = some n) :
    (∀ account : AccountInput,
      addAccount account = [Effect.dbAddAccount account, Effect.loadSnapshots]) ∧
    (∀ clock amount date, ∃ dateStr : String,
      updateBalance clock s amount date =
        [Effect.dbUpdateBalance n amount dateStr, Effect.loadSnapshots]) ∧
    (∀ data, updateAccount s data = [Effect.dbUpdateAccount n data, Effect.loadSnapshots]) ∧
    deleteAccount s = [Effect.dbDeleteAccount n, Effect.loadSnapshots] := by
  refine ⟨fun account => rfl, fun clock amount date => ?_,
    fun data => by simp [updateAccount, hs], by simp [deleteAccount, hs]⟩
  match date with
  | none => exact ⟨clock.isoUtc.take 10, by simp [updateBalance, hs]⟩
  | some d =>
    by_cases hd : d = ""
    · exact ⟨clock.isoUtc.take 10, by simp [updateBalance, hs, hd]⟩
    · exact ⟨d, by simp [updateBalance, hs, hd]⟩

/-- Witness for C6 at the concrete numeric id `"5"`. -/
theorem mutations_await_snapshot_reload_witness :
    jsParseInt10 "5" = some 5 ∧
    deleteAccount "5" = [Effect.dbDeleteAccount 5, Effect.loadSnapshots] :=
  ⟨by decide, (mutations_await_snapshot_reload "5" 5 (by decide)).2.2.2⟩

/-- C9: on a valid numeric id, `updateBalance` with the date omitted or equal
to the empty string passes the first 10 characters of the UTC ISO timestamp
(the UTC calendar day) to the database — never the local calendar day when
that differs — and passes any other non-empty date string through
unchanged. -/
theorem updateBalance_date_default_utc (s : String) (n : Int) (clock : Clock)
    (amount : ℚ) (hs : jsParseInt10 s = some n) :
    updateBalance clock s amount none =
      [Effect.dbUpdateBalance n amount (clock.isoUtc.take 10), Effect.loadSnapshots] ∧
    updateBalance clock s amount (some "") =
      [Effect.dbUpdateBalance n amount (clock.isoUtc.take 10), Effect.loadSnapshots] ∧
    (∀ d : String, d ≠ "" →
      updateBalance clock s amount (some d) =
        [Effect.dbUpdateBalance n amount d, Effect.loadSnapshots]) ∧
    (clock.localDay ≠ clock.isoUtc.take 10 →
      ∀ e ∈ updateBalance clock s amount none,
        e ≠ Effect.dbUpdateBalance n amount clock.localDay) := by
  refine ⟨by simp [updateBalance, hs], by simp [updateBalance, hs],
    fun d hd => by simp [updateBalance, hs, hd], ?_⟩
  intro hne e he
  simp only [updateBalance, hs] at he
  rcases List.mem_cons.mp he with rfl | he2
  · intro hcontra
    injection hcontra with _ _ h3
    exact hne h3.symm
  · rcases List.mem_singleton.mp he2 with rfl
    exact fun hcontra => Effect.noConfusion hcontra

/-- Witness for C9 at the concrete id `"5"` and a clock whose UTC and local
days differ. -/
theorem updateBalance_date_default_utc_witness :
    jsParseInt10 "5" = some 5 ∧
    updateBalance ⟨"2024-01-02T01:00:00.000Z", "2024-01-01"⟩ "5" 3 none =
      [Effect.dbUpdateBalance 5 3 (("2024-01-02T01:00:00.000Z" : String).take 10),
        Effect.loadSnapshots] :=
  ⟨by decide,
   (updateBalance_date_default_utc "5" 5 ⟨"2024-01-02T01:00:00.000Z", "2024-01-01"⟩ 3
     (by decide)).1⟩

/-- C10: the dashboard chart series consists of exactly the snapshots with
`assetsTotal > 0` or `liabilitiesTotal > 0`, in their original order, with
`x` the post-filter index; months where both totals are non-positive are
dropped, so the demo series skips its middle calendar month. -/
theorem chartData_filters_nonpositive_months (snapshots : List MonthlySnapshotData) :
    (chartData snapshots).map (fun p => (p.month, p.assets, p.liabilities, p.netWorth)) =
      (snapshots.filter fun s =>
        decide (0 < s.assetsTotal) || decide (0 < s.liabilitiesTotal)).map
        (fun s => (s.month, s.assetsTotal, s.liabilitiesTotal, s.netWorth)) ∧
    (∀ p ∈ chartData snapshots, 0 < p.assets ∨ 0 < p.liabilities) ∧
    (∀ i : Fin (chartData snapshots).length, ((chartData snapshots).get i).x = (i : ℕ)) ∧
    (chartData demoChartSnapshots).map (fun p => p.month) = ["2024-01", "2024-03"] := by
  have hmap : ∀ l : List MonthlySnapshotData,
      (l.mapIdx fun index s =>
        ({ x := index, assets := s.assetsTotal, liabilities := s.liabilitiesTotal,
           netWorth := s.netWorth, month := s.month } : ChartPoint)).map
        (fun p => (p.month, p.assets, p.liabilities, p.netWorth)) =
      l.map fun s => (s.month, s.assetsTotal, s.liabilitiesTotal, s.netWorth) := by
    intro l
    rw [List.mapIdx_eq_enum_map, List.map_map]
    have : l.enum.map ((fun p => (p.month, p.assets, p.liabilities, p.netWorth)) ∘
        Function.uncurry fun index s =>
          ({ x := index, assets := s.assetsTotal, liabilities := s.liabilitiesTotal,
             netWorth := s.netWorth, month := s.month } : ChartPoint)) =
        l.enum.map ((fun s => (s.month, s.assetsTotal, s.liabilitiesTotal, s.netWorth)) ∘
          Prod.snd) := by
      refine List.map_congr_left ?_
      rintro ⟨i, a⟩ -
      rfl
    rw [this, ← List.map_map, List.enum_map_snd]
  refine ⟨hmap _, ?_, ?_, by decide⟩
  · intro p hp
    have hmem := List.mem_map_of_mem (fun p => (p.month, p.assets, p.liabilities, p.netWorth)) hp
    rw [show (chartData snapshots).map (fun p => (p.month, p.assets, p.liabilities, p.netWorth)) =
        _ from hmap _] at hmem
    rcases List.mem_map.mp hmem with ⟨s, hsmem, hproj⟩
    have hq := (List.mem_filter.mp hsmem).2
    have hassets : s.assetsTotal = p.assets := congrArg (fun t => t.2.1) hproj
    have hliab : s.liabilitiesTotal = p.liabilities := congrArg (fun t => t.2.2.1) hproj
    simp only [Bool.or_eq_true, decide_eq_true_eq] at hq
    rcases hq with hq | hq
    · exact Or.inl (hassets ▸ hq)
    · exact Or.inr (hliab ▸ hq)
  · intro i
    have hi := i.isLt
    simp only [chartData] at hi ⊢
    rw [List.get_eq_getElem]
    simp only [List.mapIdx_eq_enum_map]
    rw [List.getElem_map]
    rw [List.getElem_enum]
    rfl

/-- Witness for C10: the chart property applied at the demo sequence. -/
theorem chartData_filters_nonpositive_months_witness :
    (∀ p ∈ chartData demoChartSnapshots, 0 < p.assets ∨ 0 < p.liabilities) ∧
    (chartData demoChartSnapshots).map (fun p => p.month) = ["2024-01", "2024-03"] :=
  ⟨(chartData_filters_nonpositive_months demoChartSnapshots).2.1,
   (chartData_filters_nonpositive_months demoChartSnapshots).2.2.2⟩

end NetWorth
